import Mathlib

/-!
Verification of the SwiftGit2 `Clibgit2` shim (`Sources/Clibgit2/git2.h`)
against its natural-language specification.

The header under verification declares two wrapper structs
(`git_smart_subtransport_swift`, `git_smart_subtransport_stream_swift`)
and one static initializer value (`git_status_options_init_value`).
We embed the header's declarations as explicit Lean data (field lists in
declaration order, with types), and model the transport-plugin layer the
spec designs (registry, subtransport, stream) where the implementation
is not part of the excerpt.
-/

namespace Clibgit2

/-- A C type as it appears in the header: a named (struct/typedef) type or
a pointer to a type. -/
inductive CType where
  | named : String → CType
  | ptr : CType → CType
  deriving DecidableEq, Repr

/-- A struct field: declared name and type, in declaration order. -/
structure CField where
  name : String
  type : CType
  deriving DecidableEq, Repr

/-- A top-level declaration of the header: a struct definition, a static
variable definition with an initializer expression, or a function
definition with a body (the header contains none of the latter; the
constructor exists so that absence is a statable fact). -/
inductive CDecl where
  | structDecl (name : String) (fields : List CField)
  | staticVarDecl (name : String) (type : CType) (init : String)
  | funcDecl (name : String) (body : List String)
  deriving DecidableEq, Repr

/-- `struct git_smart_subtransport_swift`, embedded field-for-field from
`Sources/Clibgit2/git2.h` lines 7-11. -/
def git_smart_subtransport_swift : CDecl :=
  .structDecl "git_smart_subtransport_swift"
    [⟨"parent", .named "git_smart_subtransport"⟩,
     ⟨"owner", .ptr (.named "git_transport")⟩,
     ⟨"context", .ptr (.named "void")⟩]

/-- `struct git_smart_subtransport_stream_swift`, embedded field-for-field
from `Sources/Clibgit2/git2.h` lines 13-16. -/
def git_smart_subtransport_stream_swift : CDecl :=
  .structDecl "git_smart_subtransport_stream_swift"
    [⟨"parent", .named "git_smart_subtransport_stream"⟩,
     ⟨"context", .ptr (.named "void")⟩]

/-- `static git_status_options git_status_options_init_value =
GIT_STATUS_OPTIONS_INIT;`, line 18 of the header. -/
def git_status_options_init_value : CDecl :=
  .staticVarDecl "git_status_options_init_value" (.named "git_status_options")
    "GIT_STATUS_OPTIONS_INIT"

/-- The complete list of top-level declarations of
`Sources/Clibgit2/git2.h`, in source order ( `#pragma` and `#include`
lines introduce no declarations). -/
def git2_h : List CDecl :=
  [git_smart_subtransport_swift,
   git_smart_subtransport_stream_swift,
   git_status_options_init_value]

/-- The fields of a declaration (empty for non-structs). -/
def CDecl.fields : CDecl → List CField
  | .structDecl _ fs => fs
  | _ => []

/-- The declared name of a top-level declaration. -/
def CDecl.name : CDecl → String
  | .structDecl n _ => n
  | .staticVarDecl n _ _ => n
  | .funcDecl n _ => n

def CDecl.isStruct : CDecl → Bool
  | .structDecl _ _ => true
  | _ => false

def CDecl.isStaticVar : CDecl → Bool
  | .staticVarDecl _ _ _ => true
  | _ => false

def CDecl.isFunc : CDecl → Bool
  | .funcDecl _ _ => true
  | _ => false

/-- Position (0-based) of the field named `n` in a field list, in
declaration order. -/
def fieldIndex (fs : List CField) (n : String) : Option Nat :=
  fs.findIdx? (fun f => f.name = n)

/-- The declared type of the field named `n` in a field list. -/
def fieldType (fs : List CField) (n : String) : Option CType :=
  (fs.find? (fun f => f.name = n)).map CField.type

/-- Byte offsets of a struct's fields under an arbitrary size assignment
`sz` for C types: each field starts where the previous one ended. -/
def fieldOffsets (sz : CType → Nat) : List CField → List (String × Nat)
  | [] => []
  | f :: fs => (f.name, 0) :: (fieldOffsets sz fs).map (fun p => (p.1, p.2 + sz f.type))

/-- The byte offset of field `n` of declaration `d` under size
assignment `sz`. -/
def offsetOf (sz : CType → Nat) (d : CDecl) (n : String) : Option Nat :=
  (fieldOffsets sz d.fields).lookup n

/-- Whether a declaration's textual content mutates the variable `v`:
only a function body can contain an assignment; a static variable's own
initializer is its initialization, not a mutation. -/
def CDecl.mutates (d : CDecl) (v : String) : Bool :=
  match d with
  | .funcDecl _ body => body.any (fun stmt => stmt = v ++ " = ...")
  | _ => false

theorem fieldOffsets_head (sz : CType → Nat) (f : CField) (fs : List CField) :
    fieldOffsets sz (f :: fs) =
      (f.name, 0) :: (fieldOffsets sz fs).map (fun p => (p.1, p.2 + sz f.type)) := rfl

/-- C2 (counterexample): in the declared layout of both wrapper structs the
opaque `context` pointer is NOT placed before the embedded native vtable
struct: `parent` sits at declaration index 0 while `context` sits at index 2
(subtransport) resp. index 1 (stream), so `context` comes after `parent`,
refuting the claimed placement at the concrete declarations of the header. -/
theorem context_field_follows_parent_field :
    fieldIndex git_smart_subtransport_swift.fields "context" = some 2 ∧
    fieldIndex git_smart_subtransport_swift.fields "parent" = some 0 ∧
    fieldIndex git_smart_subtransport_stream_swift.fields "context" = some 1 ∧
    fieldIndex git_smart_subtransport_stream_swift.fields "parent" = some 0 := by
  refine ⟨rfl, rfl, rfl, rfl⟩

/-- C2 (amended): each of the two wrapper structs appends an opaque context
pointer after the embedded native libgit2 vtable struct: in
`git_smart_subtransport_swift` and `git_smart_subtransport_stream_swift`
the native `parent` struct is declared strictly before the `void *context`
member, and `context` has type `void *`. -/
theorem wrapper_structs_append_context_pointer :
    (∃ ip ic, fieldIndex git_smart_subtransport_swift.fields "parent" = some ip ∧
      fieldIndex git_smart_subtransport_swift.fields "context" = some ic ∧ ip < ic) ∧
    (∃ ip ic, fieldIndex git_smart_subtransport_stream_swift.fields "parent" = some ip ∧
      fieldIndex git_smart_subtransport_stream_swift.fields "context" = some ic ∧ ip < ic) ∧
    (fieldType git_smart_subtransport_swift.fields "context" = some (.ptr (.named "void"))) ∧
    (fieldType git_smart_subtransport_stream_swift.fields "context" = some (.ptr (.named "void"))) := by
  exact ⟨⟨0, 2, rfl, rfl, by omega⟩, ⟨0, 1, rfl, rfl, by omega⟩, rfl, rfl⟩

/-- C3: in both wrapper structs the embedded native struct `parent` is the
first declared member, hence under every size assignment for C types its
byte offset is 0: the address of a wrapper instance equals the address of
its `parent` member, which is what lets a wrapper pointer be used as a
pointer to the native libgit2 vtable struct. -/
theorem parent_member_at_offset_zero (sz : CType → Nat) :
    offsetOf sz git_smart_subtransport_swift "parent" = some 0 ∧
    offsetOf sz git_smart_subtransport_stream_swift "parent" = some 0 ∧
    fieldIndex git_smart_subtransport_swift.fields "parent" = some 0 ∧
    fieldIndex git_smart_subtransport_stream_swift.fields "parent" = some 0 := by
  refine ⟨rfl, rfl, rfl, rfl⟩

/-- C4: the header consists of exactly two struct declarations (the two
wrapper structs) and one static initializer value of the status-options
struct type, and nothing else: in particular it contains no function
definitions, hence no algorithmic content. -/
theorem git2_h_is_two_structs_and_one_static :
    git2_h = [git_smart_subtransport_swift,
              git_smart_subtransport_stream_swift,
              git_status_options_init_value] ∧
    (git2_h.filter CDecl.isStruct).length = 2 ∧
    (git2_h.filter CDecl.isStaticVar).length = 1 ∧
    (git2_h.filter CDecl.isFunc).length = 0 ∧
    git2_h.length = 3 ∧
    git_status_options_init_value =
      .staticVarDecl "git_status_options_init_value" (.named "git_status_options")
        "GIT_STATUS_OPTIONS_INIT" := by
  refine ⟨rfl, rfl, rfl, rfl, rfl, rfl⟩

/-- C5: the Subtransport wrapper struct carries the `owner` back-reference
(of type `git_transport *`) in addition to the `context` pointer, while the
Stream wrapper struct carries only `parent` and `context` and has no
`owner` member. -/
theorem owner_only_in_subtransport_wrapper :
    git_smart_subtransport_swift.fields =
      [⟨"parent", .named "git_smart_subtransport"⟩,
       ⟨"owner", .ptr (.named "git_transport")⟩,
       ⟨"context", .ptr (.named "void")⟩] ∧
    git_smart_subtransport_stream_swift.fields =
      [⟨"parent", .named "git_smart_subtransport_stream"⟩,
       ⟨"context", .ptr (.named "void")⟩] ∧
    (git_smart_subtransport_swift.fields.map CField.name).contains "owner" = true ∧
    (git_smart_subtransport_stream_swift.fields.map CField.name).contains "owner" = false := by
  refine ⟨rfl, rfl, rfl, rfl⟩

/-- C6: `git_status_options_init_value` is declared exactly once, with the
default initializer `GIT_STATUS_OPTIONS_INIT`, and no declaration of the
header mutates it (the header holds no function bodies at all), so after
initialization the value undergoes no mutation. -/
theorem status_options_init_value_immutable :
    (git2_h.filter (fun d => d.name = "git_status_options_init_value")).length = 1 ∧
    git_status_options_init_value =
      .staticVarDecl "git_status_options_init_value" (.named "git_status_options")
        "GIT_STATUS_OPTIONS_INIT" ∧
    git2_h.all (fun d => !(d.mutates "git_status_options_init_value")) = true := by
  refine ⟨rfl, rfl, rfl⟩

end Clibgit2

namespace TransportLayer

/-- Modelled from the spec: the error taxonomy of the transport-plugin
layer (spec section 7); the layer's implementation is not part of the
source excerpt, only the header's wrapper structs are. -/
inductive TransportError where
  | InvalidURLError
  | UnsupportedSchemeError
  | DuplicateSchemeError
  | SequenceError
  | ConnectionError
  | StreamIOError
  | HandleReleaseError
  deriving DecidableEq, Repr

/-- Modelled from the spec: the connection lifecycle states of a
Subtransport (spec section 3). -/
inductive ConnState where
  | Created
  | Opening
  | Open
  | Closed
  | Failed
  deriving DecidableEq, Repr

/-- Modelled from the spec: the ContextHandle — the opaque pointer carried
inside the wrapper structs, owned by the managed-language side — with a
release counter recording how many times it has been released. -/
structure ContextHandle where
  releaseCount : Nat
  deriving DecidableEq, Repr

/-- Modelled from the spec: releasing a ContextHandle; a second release of
the same handle is the double-release fault `HandleReleaseError`. -/
def releaseHandle (h : ContextHandle) : Except TransportError ContextHandle :=
  if h.releaseCount = 0 then .ok ⟨1⟩ else .error .HandleReleaseError

/-- Modelled from the spec: a Subtransport — one connection attempt to one
remote URL, with its connection state, the number of its streams created
and not yet closed, and its ContextHandle. -/
structure Subtransport where
  remoteURL : String
  connectionState : ConnState
  openStreams : Nat
  handle : ContextHandle
  deriving DecidableEq, Repr

/-- Modelled from the spec: constructing a Subtransport from a factory; the
fresh object holds a not-yet-released ContextHandle and no open stream. -/
def mkSubtransport (url : String) : Subtransport :=
  ⟨url, .Created, 0, ⟨0⟩⟩

/-- Modelled from the spec: `action(type)` — fails with `SequenceError` if
a previous stream for this Subtransport is still open, fails with
`ConnectionError` on a closed or failed connection; on success opens one
stream and transitions `connectionState` to `Open`. -/
def Subtransport.action (t : Subtransport) : Except TransportError Subtransport :=
  if t.openStreams ≠ 0 then .error .SequenceError
  else if t.connectionState = .Closed ∨ t.connectionState = .Failed then
    .error .ConnectionError
  else .ok { t with connectionState := .Open, openStreams := 1 }

/-- Modelled from the spec: `close()` on a Subtransport — idempotent,
transitions to `Closed`, implicitly closes its streams, and releases the
ContextHandle exactly once (only on the transition out of non-Closed). -/
def Subtransport.close (t : Subtransport) : Except TransportError Subtransport :=
  if t.connectionState = .Closed then .ok t
  else
    match releaseHandle t.handle with
    | .ok h => .ok { t with connectionState := .Closed, openStreams := 0, handle := h }
    | .error e => .error e

/-- Modelled from the spec: the operations the Protocol Driver may perform
on a Subtransport after constructing it. -/
inductive Op where
  | action
  | closeStream
  | close
  deriving DecidableEq, Repr

/-- Modelled from the spec: one driver step; a failed operation reports its
error to the caller and leaves the Subtransport unchanged. -/
def stepOp (t : Subtransport) : Op → Subtransport × Option TransportError
  | .action =>
    match t.action with
    | .ok u => (u, none)
    | .error e => (t, some e)
  | .closeStream => ({ t with openStreams := t.openStreams - 1 }, none)
  | .close =>
    match t.close with
    | .ok u => (u, none)
    | .error e => (t, some e)

/-- Modelled from the spec: running a sequence of driver operations,
collecting the state and the errors reported along the way. -/
def runOps (t : Subtransport) : List Op → Subtransport × List TransportError
  | [] => (t, [])
  | op :: ops =>
    ((runOps (stepOp t op).1 ops).1,
     (stepOp t op).2.toList ++ (runOps (stepOp t op).1 ops).2)

/-- Modelled from the spec: a SubtransportStream — one request/response
exchange, with its incoming bytes, read position, outgoing buffer, closed
flag, and a flag recording an underlying transport failure. -/
structure SubtransportStream where
  input : List Nat
  pos : Nat
  output : List Nat
  closed : Bool
  failed : Bool
  deriving DecidableEq, Repr

/-- Modelled from the spec: `read(maxBytes)` — fails with `StreamIOError`
on a closed stream or on an underlying transport failure; otherwise returns
the next chunk, which is zero-length at end-of-data (EOF is a result, not
an error). -/
def SubtransportStream.read (s : SubtransportStream) (maxBytes : Nat) :
    Except TransportError (List Nat × SubtransportStream) :=
  if s.closed then .error .StreamIOError
  else if s.failed then .error .StreamIOError
  else
    let chunk := (s.input.drop s.pos).take maxBytes
    .ok (chunk, { s with pos := s.pos + chunk.length })

/-- Modelled from the spec: `write(bytes)` — fails with `StreamIOError` on
a closed stream or on an underlying transport failure; otherwise buffers
the bytes and reports how many were written. -/
def SubtransportStream.write (s : SubtransportStream) (bytes : List Nat) :
    Except TransportError (Nat × SubtransportStream) :=
  if s.closed then .error .StreamIOError
  else if s.failed then .error .StreamIOError
  else .ok (bytes.length, { s with output := s.output ++ bytes })

/-- Modelled from the spec: `close()` on a stream — idempotent and total
(never raises): a no-op on an already-closed stream. -/
def SubtransportStream.close (s : SubtransportStream) : SubtransportStream :=
  if s.closed then s else { s with closed := true }

/-- Modelled from the spec: the Transport Registry — scheme strings mapped
to factories (factories are opaque identifiers here), registered once. -/
def Registry := List (List Char × Nat)

/-- Modelled from the spec: `register(scheme, factory)` — fails with
`DuplicateSchemeError` if the scheme is already registered. -/
def register (reg : Registry) (scheme : List Char) (factory : Nat) :
    Except TransportError Registry :=
  match List.lookup scheme reg with
  | some _ => .error .DuplicateSchemeError
  | none => .ok ((scheme, factory) :: reg)

/-- Modelled from the spec: splitting a URL at the first `://` into its
scheme prefix and remainder; `none` when no `://` occurs. -/
def splitScheme : List Char → Option (List Char × List Char)
  | [] => none
  | c :: rest =>
    if c = ':' ∧ rest.take 2 = ['/', '/'] then some ([], rest.drop 2)
    else
      match splitScheme rest with
      | some (s, r) => some (c :: s, r)
      | none => none

/-- Modelled from the spec: building a URL from a scheme and a remainder. -/
def mkURL (scheme rest : List Char) : List Char :=
  scheme ++ ':' :: '/' :: '/' :: rest

/-- Modelled from the spec: `resolve(url)` — parses the scheme prefix and
fails with `UnsupportedSchemeError` when no factory is registered for it
(and with `InvalidURLError` when the URL has no scheme prefix at all). -/
def resolve (reg : Registry) (url : List Char) : Except TransportError Nat :=
  match splitScheme url with
  | none => .error .InvalidURLError
  | some (s, _) =>
    match List.lookup s reg with
    | some f => .ok f
    | none => .error .UnsupportedSchemeError

/-- The machine invariant: at most one open stream, the handle released at
most once, and the handle released exactly when the connection is Closed. -/
def SubInv (t : Subtransport) : Prop :=
  t.openStreams ≤ 1 ∧ t.handle.releaseCount ≤ 1 ∧
    (t.connectionState = .Closed ↔ t.handle.releaseCount = 1)

theorem subInv_mk (url : String) : SubInv (mkSubtransport url) := by
  refine ⟨by simp [mkSubtransport], by simp [mkSubtransport], by simp [mkSubtransport]⟩

theorem stepOp_inv (t : Subtransport) (op : Op) (h : SubInv t) :
    SubInv (stepOp t op).1 ∧ (stepOp t op).2 ≠ some .HandleReleaseError := by
  obtain ⟨h1, h2, h3⟩ := h
  cases op with
  | action =>
    by_cases hs : t.openStreams ≠ 0
    · simp [stepOp, Subtransport.action, hs]
      exact ⟨h1, h2, h3⟩
    · push_neg at hs
      by_cases hc : t.connectionState = .Closed ∨ t.connectionState = .Failed
      · simp [stepOp, Subtransport.action, hs, hc]
        exact ⟨h1, h2, h3⟩
      · have hnotClosed : ¬ t.connectionState = .Closed := fun he => hc (Or.inl he)
        have hcount : ¬ t.handle.releaseCount = 1 := fun he => hnotClosed (h3.mpr he)
        simp [stepOp, Subtransport.action, hs, hc, SubInv]
        exact ⟨h2, hcount⟩
  | closeStream =>
    simp [stepOp, SubInv]
    exact ⟨by omega, h2, h3⟩
  | close =>
    by_cases hc : t.connectionState = .Closed
    · simp [stepOp, Subtransport.close, hc]
      exact ⟨h1, h2, h3⟩
    · have hcount : t.handle.releaseCount = 0 := by
        have hne : ¬ t.handle.releaseCount = 1 := fun he => hc (h3.mpr he)
        omega
      simp [stepOp, Subtransport.close, hc, releaseHandle, hcount, SubInv]

theorem runOps_inv (ops : List Op) (t : Subtransport) (h : SubInv t) :
    SubInv (runOps t ops).1 ∧
      TransportError.HandleReleaseError ∉ (runOps t ops).2 := by
  induction ops generalizing t with
  | nil => simpa [runOps] using h
  | cons op ops ih =>
    obtain ⟨hi, he⟩ := stepOp_inv t op h
    obtain ⟨hi2, he2⟩ := ih (stepOp t op).1 hi
    refine ⟨hi2, ?_⟩
    simp only [runOps, List.mem_append]
    rintro (hmem | hmem)
    · rcases hopt : (stepOp t op).2 with _ | e
      · simp [hopt] at hmem
      · simp [hopt] at hmem
        exact he (by rw [hopt, hmem])
    · exact he2 hmem

theorem runOps_fst_append (t : Subtransport) (xs ys : List Op) :
    (runOps t (xs ++ ys)).1 = (runOps (runOps t xs).1 ys).1 := by
  induction xs generalizing t with
  | nil => simp [runOps]
  | cons x xs ih => simp [runOps, ih]

theorem stepOp_preserves_closed (t : Subtransport) (op : Op)
    (h : t.connectionState = .Closed) :
    (stepOp t op).1.connectionState = .Closed := by
  cases op with
  | action =>
    by_cases hs : t.openStreams ≠ 0
    · simp [stepOp, Subtransport.action, hs, h]
    · simp [stepOp, Subtransport.action, hs, h]
  | closeStream => simp [stepOp, h]
  | close => simp [stepOp, Subtransport.close, h]

theorem runOps_preserves_closed (ops : List Op) (t : Subtransport)
    (h : t.connectionState = .Closed) :
    (runOps t ops).1.connectionState = .Closed := by
  induction ops generalizing t with
  | nil => simpa [runOps] using h
  | cons op ops ih =>
    simpa [runOps] using ih _ (stepOp_preserves_closed t op h)

theorem stepOp_close_closes (t : Subtransport) (h : SubInv t) :
    (stepOp t .close).1.connectionState = .Closed := by
  obtain ⟨h1, h2, h3⟩ := h
  by_cases hc : t.connectionState = .Closed
  · simp [stepOp, Subtransport.close, hc]
  · have hcount : t.handle.releaseCount = 0 := by
      have hne : ¬ t.handle.releaseCount = 1 := fun he => hc (h3.mpr he)
      omega
    simp [stepOp, Subtransport.close, hc, releaseHandle, hcount]

theorem splitScheme_mkURL (s r : List Char) (h : ':' ∉ s) :
    splitScheme (mkURL s r) = some (s, r) := by
  induction s with
  | nil => simp [mkURL, splitScheme]
  | cons c cs ih =>
    have hc : ¬ c = ':' := by
      intro he
      exact h (by rw [he]; exact List.mem_cons_self _ _)
    have hcs : ':' ∉ cs := fun hm => h (List.mem_cons_of_mem _ hm)
    have hrec := ih hcs
    show splitScheme (c :: mkURL cs r) = some (c :: cs, r)
    simp only [splitScheme]
    rw [if_neg (fun hand => hc hand.1), hrec]

/-- C1: the ContextHandle of a Subtransport is released exactly once: for
every driver sequence that constructs a Subtransport and closes it (with
any operations before and any operations — further closes included —
after), the release counter of its handle ends at exactly 1, and the
double-release fault `HandleReleaseError` is never reported along the
run. -/
theorem contexthandle_released_exactly_once (url : String) (ops tail : List Op) :
    (runOps (mkSubtransport url) (ops ++ Op.close :: tail)).1.handle.releaseCount = 1 ∧
    TransportError.HandleReleaseError ∉
      (runOps (mkSubtransport url) (ops ++ Op.close :: tail)).2 := by
  have hinv0 := subInv_mk url
  have hrun := runOps_inv (ops ++ Op.close :: tail) (mkSubtransport url) hinv0
  refine ⟨?_, hrun.2⟩
  have hmid := runOps_inv ops (mkSubtransport url) hinv0
  have hclosed1 := stepOp_close_closes (runOps (mkSubtransport url) ops).1 hmid.1
  have hfst : (runOps (mkSubtransport url) (ops ++ Op.close :: tail)).1 =
      (runOps (stepOp (runOps (mkSubtransport url) ops).1 .close).1 tail).1 := by
    rw [runOps_fst_append]
    simp [runOps]
  have hfinal : (runOps (mkSubtransport url) (ops ++ Op.close :: tail)).1.connectionState
      = .Closed := by
    rw [hfst]
    exact runOps_preserves_closed tail _ hclosed1
  exact hrun.1.2.2.mp hfinal

/-- C7: close is idempotent on both Subtransport and Stream: on an
already-closed Subtransport, `close()` returns the object unchanged and
raises no error; on an already-closed Stream, `close()` returns the stream
unchanged (and is total, so it never raises). -/
theorem close_idempotent_on_closed (t : Subtransport) (s : SubtransportStream)
    (ht : t.connectionState = .Closed) (hs : s.closed = true) :
    t.close = .ok t ∧ s.close = s := by
  constructor
  · simp [Subtransport.close, ht]
  · simp [SubtransportStream.close, hs]

theorem close_idempotent_on_closed_witness :
    Subtransport.close ⟨"u", .Closed, 0, ⟨1⟩⟩ = .ok ⟨"u", .Closed, 0, ⟨1⟩⟩ ∧
    SubtransportStream.close ⟨[], 0, [], true, false⟩ = ⟨[], 0, [], true, false⟩ :=
  close_idempotent_on_closed ⟨"u", .Closed, 0, ⟨1⟩⟩ ⟨[], 0, [], true, false⟩ rfl rfl

/-- C8: at most one active stream per Subtransport: after every driver
sequence starting from a fresh Subtransport, the number of open streams is
at most 1; and an `action` issued while a previously opened stream is still
open fails with `SequenceError` and leaves the Subtransport unchanged
(opens no new stream). -/
theorem sequential_stream_invariant (url : String) (ops : List Op)
    (t : Subtransport) (h : t.openStreams ≠ 0) :
    (runOps (mkSubtransport url) ops).1.openStreams ≤ 1 ∧
    stepOp t .action = (t, some .SequenceError) := by
  refine ⟨(runOps_inv ops (mkSubtransport url) (subInv_mk url)).1.1, ?_⟩
  simp [stepOp, Subtransport.action, h]

theorem sequential_stream_invariant_witness :
    (runOps (mkSubtransport "u") [Op.action, Op.action]).1.openStreams ≤ 1 ∧
    stepOp ⟨"u", .Open, 1, ⟨0⟩⟩ .action = (⟨"u", .Open, 1, ⟨0⟩⟩, some .SequenceError) :=
  sequential_stream_invariant "u" [Op.action, Op.action] ⟨"u", .Open, 1, ⟨0⟩⟩ (by decide)

/-- C9: EOF is a result, not an error: a read on an open, non-failed stream
positioned at or past end-of-data returns a zero-length chunk and leaves
the stream unchanged; a read on a stream whose underlying transport failed
raises `StreamIOError`; and on a closed stream no read and no write ever
succeeds. -/
theorem eof_is_result_not_error (s s2 s3 : SubtransportStream) (n : Nat) (bs : List Nat)
    (hopen : s.closed = false) (hok : s.failed = false)
    (heof : s.input.length ≤ s.pos)
    (h2c : s2.closed = false) (h2f : s2.failed = true)
    (h3c : s3.closed = true) :
    s.read n = .ok ([], s) ∧
    s2.read n = .error .StreamIOError ∧
    (∀ r, s3.read n ≠ .ok r) ∧ (∀ r, s3.write bs ≠ .ok r) := by
  refine ⟨?_, ?_, ?_, ?_⟩
  · obtain ⟨inp, p, out, cl, fl⟩ := s
    simp only at hopen hok heof
    subst hopen
    subst hok
    simp [SubtransportStream.read, List.drop_eq_nil_of_le heof]
  · simp [SubtransportStream.read, h2c, h2f]
  · intro r
    simp [SubtransportStream.read, h3c]
  · intro r
    simp [SubtransportStream.write, h3c]

theorem eof_is_result_not_error_witness :
    SubtransportStream.read ⟨[1, 2], 2, [], false, false⟩ 4 =
      .ok ([], ⟨[1, 2], 2, [], false, false⟩) ∧
    SubtransportStream.read ⟨[], 0, [], false, true⟩ 4 = .error .StreamIOError ∧
    SubtransportStream.read ⟨[], 0, [], true, false⟩ 4 ≠
      .ok ([], ⟨[], 0, [], true, false⟩) ∧
    SubtransportStream.write ⟨[], 0, [], true, false⟩ [9] ≠
      .ok (1, ⟨[], 0, [], true, false⟩) := by
  have h := eof_is_result_not_error ⟨[1, 2], 2, [], false, false⟩
    ⟨[], 0, [], false, true⟩ ⟨[], 0, [], true, false⟩ 4 [9]
    rfl rfl (by decide) rfl rfl rfl
  exact ⟨h.1, h.2.1, h.2.2.1 _, h.2.2.2 _⟩

/-- C10: registry scheme resolution: for a scheme with a registered
factory, resolving a URL with that scheme returns that factory and a second
registration of the scheme fails with `DuplicateSchemeError`; resolving a
URL whose scheme has no registered entry fails with
`UnsupportedSchemeError`. (Schemes contain no colon, as URL schemes never
do.) -/
theorem registry_scheme_resolution (reg : Registry) (s r : List Char) (f f2 : Nat)
    (hcolon : ':' ∉ s) :
    (List.lookup s reg = some f →
      resolve reg (mkURL s r) = .ok f ∧
      register reg s f2 = .error .DuplicateSchemeError) ∧
    (List.lookup s reg = none →
      resolve reg (mkURL s r) = .error .UnsupportedSchemeError) := by
  constructor
  · intro hl
    constructor
    · simp [resolve, splitScheme_mkURL s r hcolon, hl]
    · simp [register, hl]
  · intro hl
    simp [resolve, splitScheme_mkURL s r hcolon, hl]

theorem registry_scheme_resolution_witness :
    resolve [(['m'], 7)] (mkURL ['m'] ['x']) = .ok 7 ∧
    register [(['m'], 7)] ['m'] 9 = .error .DuplicateSchemeError := by
  have h := registry_scheme_resolution [(['m'], 7)] ['m'] ['x'] 7 9 (by decide)
  exact ⟨(h.1 (by decide)).1, (h.1 (by decide)).2⟩

end TransportLayer
